import Mathlib

/-!
Shallow embedding of the shift action layer (`ckanext/shift/action.py`):
the `shift_submit` and `shift_hook` actions, modelled as pure state-passing
functions over an explicit environment (host-platform collaborators: the
resource store, the package store, the plugin registry, the configuration,
the clock and the job queue) and an explicit task-status store.  Observable
side effects (plugin consultations, task-status writes, job enqueues,
after-upload notifications, default-view creation) are recorded in a trace.

Modelling conventions:
* Timestamps are natural numbers; `str(datetime.datetime.utcnow())` is
  modelled by `strOfTime` (decimal serialization) and the two parsers in
  the source (`datetime.strptime` with the task format, and
  `dateutil.parser.parse`) by partial inverses returning `Option Nat`
  (`none` models the ValueError a parse failure raises).  This stands for
  the host-normalized ISO round trip of the real system.
* The trailing comma at `task['last_updated'] = str(datetime.utcnow()),`
  in the source makes that value a Python one-element tuple, not a string;
  `TaskVal` distinguishes the two shapes so the embedding can record it.
* Input validation and authorization (`_validate`, `check_access`) are
  host-side collaborators outside the claims; submit inputs are modelled
  post-validation and auth is assumed granted.
* `task_status_update` / `task_status_show` (host task-status persistence
  API) are modelled as an upsert keyed by entity id (every call in this
  module uses the constant task_type "shift" and key "shift") with the
  host assigning a fresh id on insert.
-/

namespace Shift

/-- Python value stored in a task's `last_updated` slot: either a plain
string, or a one-element tuple of a string (the shape produced by a
trailing comma after the assignment's right-hand side). -/
inductive TaskVal where
  | str (s : String)
  | tup (s : String)
deriving DecidableEq, Repr

/-- Serialization of a model timestamp, standing for `str(datetime.utcnow())`. -/
def strOfTime (t : Nat) : String := toString t

/-- Decimal value of one character, `none` for a non-digit. -/
def digitVal (c : Char) : Option Nat :=
  if c.isDigit then some (c.toNat - 48) else none

/-- Accumulating decimal parser over a character list. -/
def parseNatAux : List Char → Nat → Option Nat
  | [], acc => some acc
  | c :: cs, acc =>
    match digitVal c with
    | some d => parseNatAux cs (10 * acc + d)
    | none => none

/-- Decimal parser for a serialized timestamp: `none` on the empty string
and on any string holding a non-digit. -/
def parseNatStr (s : String) : Option Nat :=
  match s.data with
  | [] => none
  | c :: cs => parseNatAux (c :: cs) 0

/-- Model of `datetime.datetime.strptime(s, the task timestamp format)`:
returns `none` where the Python call raises ValueError. -/
def strptimeTask (s : String) : Option Nat := parseNatStr s

/-- Model of `dateutil.parser.parse`: returns `none` where the Python call
raises ValueError (an unparseable date). -/
def parse_date (s : String) : Option Nat := parseNatStr s

/-- Task dict as built by `shift_submit` (the `id` key is present only when
an existing task's identity is reused). -/
structure Task where
  id : Option String
  entity_id : String
  entity_type : String
  task_type : String
  key : String
  state : String
  value : String
  error : String
  last_updated : TaskVal
deriving DecidableEq, Repr

/-- Task record as returned by `task_status_show` (the store always has an id). -/
structure StoredTask where
  id : String
  entity_id : String
  entity_type : String
  task_type : String
  key : String
  state : String
  value : String
  error : String
  last_updated : TaskVal
deriving DecidableEq, Repr

/-- Resource dict fields this module reads (`resource_show` result). -/
structure ResourceDict where
  url : Option String
  last_modified : Option String
  package_id : String
deriving DecidableEq, Repr

/-- Metadata dict of the job payload sent to the external worker. -/
structure JobMetadata where
  ignore_hash : Bool
  ckan_url : String
  resource_id : String
  set_url_type : Bool
  task_created : String
  original_url : Option String
deriving DecidableEq, Repr

/-- Job payload handed to `enqueue_job`. -/
structure JobData where
  api_key : String
  job_type : String
  result_url : String
  metadata : JobMetadata
deriving DecidableEq, Repr

/-- Observable side effect recorded in the trace. -/
inductive Event where
  | canUpload (plugin : String) (resource_id : String)
  | taskUpdate (t : Task)
  | enqueue (j : JobData)
  | afterUpload (plugin : String)
  | createDefaultViews (resource_id : String)
deriving DecidableEq, Repr

/-- Registered IShift plugin: a name and its `can_upload` capability.
`after_upload` is a pure notification, recorded only as a trace event. -/
structure Plugin where
  name : String
  can_upload : String → Bool

/-- Host environment: collaborator services and configuration. `nowA`,
`nowB`, `nowC` are the three `utcnow()` calls inside `shift_submit` (task
creation, staleness check, final update); `hookNow` the one in `shift_hook`.
`staleAfter` is `ckanext.shift.assume_task_stale_after` (default 3600). -/
structure Env where
  resources : String → Option ResourceDict
  packages : String → Option Unit
  plugins : List Plugin
  staleAfter : Nat
  site_url : String
  user_apikey : String
  job_id : String
  new_task_id : String
  nowA : Nat
  nowB : Nat
  nowC : Nat
  hookNow : Nat

/-- Python exception escaping an action call. -/
inductive PyError where
  | validationError
  | notFound
  | valueError
  | typeError
deriving DecidableEq, Repr

/-- Task-status store: at most one task per entity id (every call in this
module uses task_type "shift" and key "shift"). -/
def Store := String → Option StoredTask

/-- Model of the host `task_status_show` action: look up the task whose
entity_id, task_type and key columns match the query. -/
def task_status_show (store : Store) (entity_id ttype tkey : String) :
    Option StoredTask :=
  match store entity_id with
  | some st =>
    if st.entity_id = entity_id ∧ st.task_type = ttype ∧ st.key = tkey then
      some st
    else none
  | none => none

/-- Conversion performed by the host on a task write: an insert is assigned
the fresh id `newId`, an update keeps the id carried by the dict. -/
def storedOfTask (newId : String) (t : Task) : StoredTask :=
  { id := t.id.getD newId, entity_id := t.entity_id,
    entity_type := t.entity_type, task_type := t.task_type, key := t.key,
    state := t.state, value := t.value, error := t.error,
    last_updated := t.last_updated }

/-- Model of the host `task_status_update` action: upsert the task record
for its entity id. -/
def task_status_update (store : Store) (newId : String) (t : Task) : Store :=
  fun eid => if eid = t.entity_id then some (storedOfTask newId t) else store eid

/-- Validated input of `shift_submit` (`data_dict` after `_validate`): the
optional flags are absent when the caller did not pass them, in which case
`data_dict.get(flag, False)` defaults them to false. -/
structure SubmitInput where
  resource_id : String
  set_url_type : Option Bool
  ignore_hash : Option Bool
deriving DecidableEq, Repr

/-- Result of a `shift_submit` call that did not raise: the returned
boolean, the trace of observable effects, and the task store afterwards. -/
structure SubmitOut where
  submitted : Bool
  trace : List Event
  store : Store

/-- The `for plugin in PluginImplementations(IShift)` loop of
`shift_submit`: consult each plugin's `can_upload` in registration order,
stopping at the first veto.  Returns the consultation events and whether
all consulted plugins allowed the upload. -/
def consultPlugins : List Plugin → String → List Event × Bool
  | [], _ => ([], true)
  | p :: ps, res_id =>
    if p.can_upload res_id then
      let rest := consultPlugins ps res_id
      (Event.canUpload p.name res_id :: rest.1, rest.2)
    else
      ([Event.canUpload p.name res_id], false)

/-- Tail of `shift_submit` after the duplicate-task check (source lines
118 to 148): first task write with state "submitting", enqueue of the job
payload, then the second task write with state "pending", the serialized
job reference as value, and — faithful to the trailing comma in the source
— a one-element tuple as `last_updated`.  `task_created` in the job
metadata is `task['last_updated']`, the submit-time string `strOfTime
env.nowA`. -/
def finishSubmit (env : Env) (store : Store) (input : SubmitInput)
    (resource_dict : ResourceDict) (pre : List Event) (task : Task) :
    Except PyError SubmitOut :=
  let store1 := task_status_update store env.new_task_id task
  let data : JobData :=
    { api_key := env.user_apikey, job_type := "push_to_datastore",
      result_url := env.site_url ++ "/api/3/action/shift_hook",
      metadata :=
        { ignore_hash := input.ignore_hash.getD false,
          ckan_url := env.site_url,
          resource_id := input.resource_id,
          set_url_type := input.set_url_type.getD false,
          task_created := strOfTime env.nowA,
          original_url := resource_dict.url } }
  let value := "\x7b\"job_id\": \"" ++ env.job_id ++ "\", \"job_key\": null\x7d"
  let task2 : Task :=
    { task with value := value, state := "pending",
                last_updated := TaskVal.tup (strOfTime env.nowC) }
  let store2 := task_status_update store1 env.new_task_id task2
  Except.ok
    { submitted := true,
      trace := pre ++ [Event.taskUpdate task, Event.enqueue data,
                       Event.taskUpdate task2],
      store := store2 }

/-- Embedding of `shift_submit` (post-validation, auth granted): resolve
the resource (NotFound is swallowed, returning false), consult the plugin
veto gate, run the duplicate/staleness check on an existing "pending"
task, then write the task and enqueue the job. -/
def shift_submit (env : Env) (store : Store) (input : SubmitInput) :
    Except PyError SubmitOut :=
  let res_id := input.resource_id
  match env.resources res_id with
  | none => Except.ok { submitted := false, trace := [], store := store }
  | some resource_dict =>
    let consult := consultPlugins env.plugins res_id
    if consult.2 then
      let task : Task :=
        { id := none, entity_id := res_id, entity_type := "resource",
          task_type := "shift",
          last_updated := TaskVal.str (strOfTime env.nowA),
          state := "submitting", key := "shift",
          value := "\x7b\x7d", error := "\x7b\x7d" }
      match task_status_show store res_id "shift" "shift" with
      | some existing_task =>
        if existing_task.state = "pending" then
          match existing_task.last_updated with
          | TaskVal.tup _ => Except.error PyError.typeError
          | TaskVal.str lu =>
            match strptimeTask lu with
            | none => Except.error PyError.valueError
            | some updated =>
              let time_since_last_updated := env.nowB - updated
              if time_since_last_updated > env.staleAfter then
                finishSubmit env store input resource_dict consult.1
                  { task with id := some existing_task.id }
              else
                Except.ok { submitted := false, trace := consult.1,
                            store := store }
        else
          finishSubmit env store input resource_dict consult.1
            { task with id := some existing_task.id }
      | none => finishSubmit env store input resource_dict consult.1 task
    else
      Except.ok { submitted := false, trace := consult.1, store := store }

/-- Task-status writes recorded in a trace. -/
def taskWrites (evs : List Event) : List Task :=
  evs.filterMap fun e =>
    match e with
    | Event.taskUpdate t => some t
    | _ => none

/-- Job enqueues recorded in a trace. -/
def enqueues (evs : List Event) : List JobData :=
  evs.filterMap fun e =>
    match e with
    | Event.enqueue j => some j
    | _ => none

/-- Metadata dict of a `shift_hook` call, as produced by the worker from
the job payload (`resource_id` is fetched with get_or_bust; the other
fields with `.get`, absent keys reading as falsy). -/
structure HookMeta where
  resource_id : Option String
  task_created : Option String
  original_url : Option String
  ignore_hash : Option Bool
  set_url_type : Option Bool
deriving DecidableEq, Repr

/-- Input `data_dict` of `shift_hook`; both keys are fetched with
get_or_bust, which raises a validation error when a key is absent. -/
structure HookInput where
  metadata : Option HookMeta
  status : Option String
deriving DecidableEq, Repr

/-- Result of a `shift_hook` call that did not raise. -/
structure HookOut where
  trace : List Event
  store : Store

/-- Python truthiness of a `.get` on a string field: false for an absent
key and for the empty string. -/
def truthyS : Option String → Bool
  | none => false
  | some s => !s.isEmpty

/-- Resubmission decision of `shift_hook` on status "complete" (source
lines 201 to 220): if the resource's last_modified and the metadata's
task_created are both truthy, parse both and resubmit exactly when the
last-modified instant is strictly later (a parse failure is caught and
leaves the decision false); only otherwise, resubmit when the resource
url and the recorded original_url are both truthy and differ. -/
def hookResubmit (resource_dict : ResourceDict) (metadata : HookMeta) : Bool :=
  if truthyS resource_dict.last_modified && truthyS metadata.task_created then
    match parse_date (resource_dict.last_modified.getD ""),
          parse_date (metadata.task_created.getD "") with
    | some last_modified_datetime, some task_created_datetime =>
      decide (task_created_datetime < last_modified_datetime)
    | _, _ => false
  else if truthyS resource_dict.url && truthyS metadata.original_url
      && !(resource_dict.url.getD "" = metadata.original_url.getD "") then
    true
  else
    false

/-- Task written by `shift_hook`: the loaded task with its state set to
the reported status and last_updated set to the hook-time string. -/
def hookUpdatedTask (st : StoredTask) (status : String) (now : Nat) : Task :=
  { id := some st.id, entity_id := st.entity_id,
    entity_type := st.entity_type, task_type := st.task_type, key := st.key,
    state := status, value := st.value, error := st.error,
    last_updated := TaskVal.str (strOfTime now) }

/-- Embedding of `shift_hook` (auth granted): require metadata, status and
the metadata's resource_id; load the task (NotFound here propagates); on
status "complete" fetch resource and package, notify plugins, create
default views and take the resubmission decision; persist the updated
task; finally, when resubmission was decided, re-enter `shift_submit`
with only the resource id. -/
def shift_hook (env : Env) (store : Store) (input : HookInput) :
    Except PyError HookOut :=
  match input.metadata, input.status with
  | some metadata, some status =>
    match metadata.resource_id with
    | none => Except.error PyError.validationError
    | some res_id =>
      match task_status_show store res_id "shift" "shift" with
      | none => Except.error PyError.notFound
      | some task0 =>
        let task := hookUpdatedTask task0 status env.hookNow
        if status = "complete" then
          match env.resources res_id with
          | none => Except.error PyError.notFound
          | some resource_dict =>
            match env.packages resource_dict.package_id with
            | none => Except.error PyError.notFound
            | some _ =>
              let afterEvs :=
                env.plugins.map fun p => Event.afterUpload p.name
              let completeEvs :=
                afterEvs ++ [Event.createDefaultViews res_id]
              let resubmit := hookResubmit resource_dict metadata
              let store1 := task_status_update store env.new_task_id task
              if resubmit then
                match shift_submit env store1
                    { resource_id := res_id, set_url_type := none,
                      ignore_hash := none } with
                | Except.error e => Except.error e
                | Except.ok out =>
                  Except.ok
                    { trace := completeEvs ++ Event.taskUpdate task :: out.trace,
                      store := out.store }
              else
                Except.ok
                  { trace := completeEvs ++ [Event.taskUpdate task],
                    store := store1 }
        else
          let store1 := task_status_update store env.new_task_id task
          Except.ok { trace := [Event.taskUpdate task], store := store1 }
  | _, _ => Except.error PyError.validationError

/-! Concrete fixtures used by the witness theorems. -/

/-- Concrete resource dict for witnesses. -/
def rd0 : ResourceDict :=
  { url := some "http://a/x.csv", last_modified := none, package_id := "pkg1" }

/-- Plugin allowing every upload. -/
def pAllow : Plugin := { name := "PA", can_upload := fun _ => true }

/-- Second plugin allowing every upload. -/
def pAllow2 : Plugin := { name := "PB", can_upload := fun _ => true }

/-- Plugin vetoing every upload. -/
def pDeny : Plugin := { name := "PD", can_upload := fun _ => false }

/-- Base environment: one resource "r1", every package present, no
plugins, default staleness window, fixed clock readings. -/
def env0 : Env :=
  { resources := fun rid => if rid = "r1" then some rd0 else none,
    packages := fun _ => some (),
    plugins := [],
    staleAfter := 3600,
    site_url := "http://ckan",
    user_apikey := "key",
    job_id := "job1",
    new_task_id := "tNew",
    nowA := 1000, nowB := 1000, nowC := 1001, hookNow := 2000 }

/-- Environment whose second plugin vetoes. -/
def envVeto : Env := { env0 with plugins := [pAllow, pDeny, pAllow2] }

/-- Environment whose staleness-check clock reads far past the window. -/
def envLate : Env := { env0 with nowB := 10000 }

/-- Environment with only allowing plugins. -/
def envAllow : Env := { env0 with plugins := [pAllow, pAllow2] }

/-- Empty task store. -/
def emptyStore : Store := fun _ => none

/-- Stored "pending" task for resource "r1", last updated at instant 100. -/
def stPending : StoredTask :=
  { id := "t1", entity_id := "r1", entity_type := "resource",
    task_type := "shift", key := "shift", state := "pending",
    value := "\x7b\x7d", error := "\x7b\x7d",
    last_updated := TaskVal.str "100" }

/-- Stored "error" task for resource "r1". -/
def stError : StoredTask := { stPending with state := "error" }

/-- Stored "complete" task for resource "r1". -/
def stComplete : StoredTask := { stPending with state := "complete" }

/-- Store holding exactly the given task under its entity id. -/
def singleStore (st : StoredTask) : Store :=
  fun eid => if eid = st.entity_id then some st else none

/-- Submit input carrying only a resource id (both flags absent). -/
def plainInput (rid : String) : SubmitInput :=
  { resource_id := rid, set_url_type := none, ignore_hash := none }

/-- Hook metadata with no dates, no original_url and no flags, naming
resource "r1". -/
def mdBare : HookMeta :=
  { resource_id := some "r1", task_created := none, original_url := none,
    ignore_hash := none, set_url_type := none }

/-- Hook metadata naming resource "r1" with task_created 100 and no
other field. -/
def mdCreated : HookMeta :=
  { resource_id := some "r1", task_created := some "100",
    original_url := none, ignore_hash := none, set_url_type := none }

/-- Hook metadata naming resource "r1" with a differing original_url and
both flags set to true. -/
def mdFlags : HookMeta :=
  { resource_id := some "r1", task_created := some "100",
    original_url := some "http://a/y.csv", ignore_hash := some true,
    set_url_type := some true }

/-- Resource dict whose last_modified is later than mdCreated's
task_created. -/
def rdLate : ResourceDict :=
  { url := some "u", last_modified := some "200", package_id := "p" }

/-- Hook input carrying mdBare and status "complete". -/
def hookInBare : HookInput :=
  { metadata := some mdBare, status := some "complete" }

/-- Hook input carrying mdBare and status "error". -/
def hookInErr : HookInput :=
  { metadata := some mdBare, status := some "error" }

/-- Hook input carrying mdFlags and status "complete". -/
def hookInFlags : HookInput :=
  { metadata := some mdFlags, status := some "complete" }

/-! Helper lemmas about traces and the plugin loop. -/

/-- Traces distribute over append for task writes. -/
theorem taskWrites_append (a b : List Event) :
    taskWrites (a ++ b) = taskWrites a ++ taskWrites b := by
  simp [taskWrites]

/-- Traces distribute over append for enqueues. -/
theorem enqueues_append (a b : List Event) :
    enqueues (a ++ b) = enqueues a ++ enqueues b := by
  simp [enqueues]

/-- A trace starting with a task update contributes no enqueue at its
head. -/
theorem enqueues_cons_taskUpdate (t : Task) (evs : List Event) :
    enqueues (Event.taskUpdate t :: evs) = enqueues evs := rfl

/-- A trace starting with a default-views creation contributes no enqueue
at its head. -/
theorem enqueues_cons_views (r : String) (evs : List Event) :
    enqueues (Event.createDefaultViews r :: evs) = enqueues evs := rfl

/-- A trace starting with an enqueue contributes that job at its head. -/
theorem enqueues_cons_enqueue (j : JobData) (evs : List Event) :
    enqueues (Event.enqueue j :: evs) = j :: enqueues evs := rfl

/-- The empty trace holds no enqueue. -/
theorem enqueues_nil : enqueues [] = [] := rfl

/-- Plugin-consultation events contain no task write. -/
theorem taskWrites_canUpload_map (ps : List Plugin) (rid : String) :
    taskWrites (ps.map fun p => Event.canUpload p.name rid) = [] := by
  simp [taskWrites]

/-- Plugin-consultation events contain no enqueue. -/
theorem enqueues_canUpload_map (ps : List Plugin) (rid : String) :
    enqueues (ps.map fun p => Event.canUpload p.name rid) = [] := by
  simp [enqueues]

/-- After-upload notification events contain no task write. -/
theorem taskWrites_afterUpload_map (ps : List Plugin) :
    taskWrites (ps.map fun p => Event.afterUpload p.name) = [] := by
  simp [taskWrites]

/-- After-upload notification events contain no enqueue. -/
theorem enqueues_afterUpload_map (ps : List Plugin) :
    enqueues (ps.map fun p => Event.afterUpload p.name) = [] := by
  simp [enqueues]

/-- The consultation loop records no task write, whatever the plugins answer. -/
theorem taskWrites_consultPlugins (ps : List Plugin) (rid : String) :
    taskWrites (consultPlugins ps rid).1 = [] := by
  induction ps with
  | nil => rfl
  | cons p ps ih =>
    by_cases hp : p.can_upload rid
    · simp only [consultPlugins, hp, if_true]
      simpa [taskWrites] using ih
    · simp [consultPlugins, hp, taskWrites]

/-- The consultation loop records no enqueue, whatever the plugins answer. -/
theorem enqueues_consultPlugins (ps : List Plugin) (rid : String) :
    enqueues (consultPlugins ps rid).1 = [] := by
  induction ps with
  | nil => rfl
  | cons p ps ih =>
    by_cases hp : p.can_upload rid
    · simp only [consultPlugins, hp, if_true]
      simpa [enqueues] using ih
    · simp [consultPlugins, hp, enqueues]

/-- When every plugin allows the upload, the consultation loop visits all
of them and reports an allowed upload. -/
theorem consultPlugins_allow (ps : List Plugin) (rid : String)
    (h : ∀ p ∈ ps, p.can_upload rid = true) :
    consultPlugins ps rid
      = (ps.map fun p => Event.canUpload p.name rid, true) := by
  induction ps with
  | nil => rfl
  | cons p ps ih =>
    have hp : p.can_upload rid = true := h p (List.mem_cons_self p ps)
    have hrest := ih fun q hq => h q (List.mem_cons_of_mem p hq)
    simp [consultPlugins, hp, hrest]

/-- When the plugins before `pv` all allow the upload and `pv` vetoes it,
the consultation loop stops at `pv` and reports a veto: the plugins after
`pv` are not consulted. -/
theorem consultPlugins_veto (ps1 : List Plugin) (pv : Plugin)
    (ps2 : List Plugin) (rid : String)
    (h1 : ∀ p ∈ ps1, p.can_upload rid = true)
    (h2 : pv.can_upload rid = false) :
    consultPlugins (ps1 ++ pv :: ps2) rid
      = ((ps1 ++ [pv]).map fun p => Event.canUpload p.name rid, false) := by
  induction ps1 with
  | nil => simp [consultPlugins, h2]
  | cons p ps ih =>
    have hp : p.can_upload rid = true := h1 p (List.mem_cons_self p ps)
    have hrest := ih fun q hq => h1 q (List.mem_cons_of_mem p hq)
    simp [consultPlugins, hp, hrest]

/-- Unfolding of a successful `task_status_show`: the row matches the
queried columns. -/
theorem task_status_show_fields (store : Store) (eid ttype tkey : String)
    (st : StoredTask) (h : task_status_show store eid ttype tkey = some st) :
    store eid = some st ∧ st.entity_id = eid ∧ st.task_type = ttype
      ∧ st.key = tkey := by
  unfold task_status_show at h
  cases hrow : store eid with
  | none => rw [hrow] at h; exact absurd h (by simp)
  | some row =>
    rw [hrow] at h
    by_cases hcond : row.entity_id = eid ∧ row.task_type = ttype ∧ row.key = tkey
    · simp [hcond] at h
      subst h
      exact ⟨rfl, hcond.1, hcond.2.1, hcond.2.2⟩
    · simp [hcond] at h

/-- A Submit over a store whose task for the resource is not in state
"pending" never raises: the resource branch, the veto branch and the
overwrite branch all return a value. -/
theorem shift_submit_ok_of_not_pending (env : Env) (store : Store)
    (input : SubmitInput) (st : StoredTask)
    (htask : task_status_show store input.resource_id "shift" "shift"
      = some st)
    (hstate : st.state ≠ "pending") :
    ∃ out, shift_submit env store input = Except.ok out := by
  simp only [shift_submit]
  split
  · exact ⟨_, rfl⟩
  · split
    · rw [htask]
      simp only [if_neg hstate]
      exact ⟨_, rfl⟩
    · exact ⟨_, rfl⟩

/-! Claim theorems. -/

/-- C6: when the resource lookup in Submit fails with not-found, Submit
swallows the exception and returns false, with no task-status write, no
enqueue (an empty trace) and an unchanged store. -/
theorem submit_resource_not_found_returns_false (env : Env) (store : Store)
    (input : SubmitInput) (hres : env.resources input.resource_id = none) :
    shift_submit env store input
      = Except.ok { submitted := false, trace := [], store := store } := by
  simp [shift_submit, hres]

/-- Witness for C6: a concrete Submit on an unknown resource id. -/
theorem submit_resource_not_found_returns_false_witness :
    env0.resources (plainInput "rX").resource_id = none ∧
      shift_submit env0 emptyStore (plainInput "rX")
        = Except.ok { submitted := false, trace := [], store := emptyStore } :=
  ⟨by decide,
   submit_resource_not_found_returns_false env0 emptyStore (plainInput "rX")
     (by decide)⟩

/-- C1: a Submit call against a resource whose existing task is "pending"
and was last updated within the staleness window (elapsed time at most
`staleAfter`) returns false, writes no task record and enqueues no job —
the at-most-one-in-flight-job-per-resource invariant. -/
theorem submit_pending_fresh_returns_false (env : Env) (store : Store)
    (input : SubmitInput) (st : StoredTask) (lu : String) (updated : Nat)
    (htask : task_status_show store input.resource_id "shift" "shift"
      = some st)
    (hstate : st.state = "pending")
    (hlu : st.last_updated = TaskVal.str lu)
    (hparse : strptimeTask lu = some updated)
    (hfresh : env.nowB - updated ≤ env.staleAfter) :
    ∃ out, shift_submit env store input = Except.ok out
      ∧ out.submitted = false
      ∧ taskWrites out.trace = [] ∧ enqueues out.trace = [] := by
  have hfresh' : ¬ env.nowB - updated > env.staleAfter := not_lt.mpr hfresh
  simp only [shift_submit]
  split
  · exact ⟨_, rfl, rfl, rfl, rfl⟩
  · split
    · rw [htask]
      simp only [hstate, hlu, hparse, eq_self_iff_true, if_true,
        if_neg hfresh']
      exact ⟨_, rfl, rfl, taskWrites_consultPlugins _ _,
             enqueues_consultPlugins _ _⟩
    · exact ⟨_, rfl, rfl, taskWrites_consultPlugins _ _,
             enqueues_consultPlugins _ _⟩

/-- Witness for C1: a pending task last updated 900 time units ago with a
3600 window makes the concrete Submit return false with an empty trace. -/
theorem submit_pending_fresh_returns_false_witness :
    task_status_show (singleStore stPending) (plainInput "r1").resource_id
        "shift" "shift" = some stPending
      ∧ stPending.state = "pending"
      ∧ stPending.last_updated = TaskVal.str "100"
      ∧ strptimeTask "100" = some 100
      ∧ env0.nowB - 100 ≤ env0.staleAfter
      ∧ ∃ out, shift_submit env0 (singleStore stPending) (plainInput "r1")
          = Except.ok out ∧ out.submitted = false
          ∧ taskWrites out.trace = [] ∧ enqueues out.trace = [] :=
  ⟨by decide, by decide, by decide, by decide, by decide,
   submit_pending_fresh_returns_false env0 (singleStore stPending)
     (plainInput "r1") stPending "100" 100 (by decide) (by decide)
     (by decide) (by decide) (by decide)⟩

/-- C3: with the registered plugins split as `ps1 ++ pv :: ps2` where the
plugins of `ps1` all allow the upload and `pv` vetoes it, Submit returns
false; its trace is exactly the consultations of `ps1` and `pv` — the
plugins of `ps2` are never consulted — and contains no task write and no
enqueue. -/
theorem submit_plugin_veto_short_circuits (env : Env) (store : Store)
    (input : SubmitInput) (rd : ResourceDict)
    (ps1 : List Plugin) (pv : Plugin) (ps2 : List Plugin)
    (hres : env.resources input.resource_id = some rd)
    (hplug : env.plugins = ps1 ++ pv :: ps2)
    (hallow : ∀ p ∈ ps1, p.can_upload input.resource_id = true)
    (hveto : pv.can_upload input.resource_id = false) :
    shift_submit env store input
      = Except.ok
          { submitted := false,
            trace := (ps1 ++ [pv]).map
              fun p => Event.canUpload p.name input.resource_id,
            store := store }
      ∧ taskWrites ((ps1 ++ [pv]).map
          fun p => Event.canUpload p.name input.resource_id) = []
      ∧ enqueues ((ps1 ++ [pv]).map
          fun p => Event.canUpload p.name input.resource_id) = [] := by
  refine ⟨?_, taskWrites_canUpload_map _ _, enqueues_canUpload_map _ _⟩
  simp only [shift_submit, hres, hplug,
    consultPlugins_veto ps1 pv ps2 input.resource_id hallow hveto,
    Bool.false_eq_true, if_false]

/-- Witness for C3: in `envVeto` the first plugin allows, the second
vetoes; the concrete Submit returns false and the third plugin is not
consulted. -/
theorem submit_plugin_veto_short_circuits_witness :
    envVeto.resources (plainInput "r1").resource_id = some rd0
      ∧ envVeto.plugins = [pAllow] ++ pDeny :: [pAllow2]
      ∧ (∀ p ∈ [pAllow], p.can_upload (plainInput "r1").resource_id = true)
      ∧ pDeny.can_upload (plainInput "r1").resource_id = false
      ∧ shift_submit envVeto emptyStore (plainInput "r1")
          = Except.ok
              { submitted := false,
                trace := ([pAllow] ++ [pDeny]).map
                  fun p => Event.canUpload p.name (plainInput "r1").resource_id,
                store := emptyStore }
      ∧ taskWrites (([pAllow] ++ [pDeny]).map
          fun p => Event.canUpload p.name (plainInput "r1").resource_id) = []
      ∧ enqueues (([pAllow] ++ [pDeny]).map
          fun p => Event.canUpload p.name (plainInput "r1").resource_id) = [] := by
  have h := submit_plugin_veto_short_circuits envVeto emptyStore
    (plainInput "r1") rd0 [pAllow] pDeny [pAllow2] (by decide) rfl
    (by intro p hp; simp at hp; subst hp; rfl) rfl
  exact ⟨by decide, rfl, by intro p hp; simp at hp; subst hp; rfl, rfl,
         h.1, h.2.1, h.2.2⟩

/-- C5: a Submit call against a resource whose existing task is "pending"
but strictly older than the staleness window proceeds past the duplicate
check and returns true; both task-status writes reuse the existing task's
id (an upsert by id, not an insert of a second task), and the store
afterwards holds the resource's single task under that same id, now in
state "pending". -/
theorem submit_stale_pending_overwrites (env : Env) (store : Store)
    (input : SubmitInput) (rd : ResourceDict) (st : StoredTask)
    (lu : String) (updated : Nat)
    (hres : env.resources input.resource_id = some rd)
    (hallow : ∀ p ∈ env.plugins, p.can_upload input.resource_id = true)
    (htask : task_status_show store input.resource_id "shift" "shift"
      = some st)
    (hstate : st.state = "pending")
    (hlu : st.last_updated = TaskVal.str lu)
    (hparse : strptimeTask lu = some updated)
    (hstale : env.staleAfter < env.nowB - updated) :
    ∃ out, shift_submit env store input = Except.ok out
      ∧ out.submitted = true
      ∧ (taskWrites out.trace).length = 2
      ∧ (∀ t ∈ taskWrites out.trace, t.id = some st.id)
      ∧ ∃ fin, out.store input.resource_id = some fin ∧ fin.id = st.id
          ∧ fin.state = "pending" := by
  simp only [shift_submit, hres, consultPlugins_allow env.plugins
    input.resource_id hallow, if_true]
  rw [htask]
  simp only [hstate, hlu, hparse, eq_self_iff_true, if_true, if_pos hstale,
    finishSubmit]
  refine ⟨_, rfl, rfl, ?_, ?_, ?_⟩
  · simp [taskWrites_append, taskWrites_canUpload_map, taskWrites]
  · intro t ht
    simp [taskWrites_append, taskWrites_canUpload_map, taskWrites] at ht
    rcases ht with h | h <;> subst h <;> rfl
  · simp [task_status_update, storedOfTask]

/-- Witness for C5: a pending task 9900 time units old with a 3600 window
is overwritten under its own id "t1". -/
theorem submit_stale_pending_overwrites_witness :
    envLate.resources (plainInput "r1").resource_id = some rd0
      ∧ (∀ p ∈ envLate.plugins,
          p.can_upload (plainInput "r1").resource_id = true)
      ∧ task_status_show (singleStore stPending)
          (plainInput "r1").resource_id "shift" "shift" = some stPending
      ∧ stPending.state = "pending"
      ∧ stPending.last_updated = TaskVal.str "100"
      ∧ strptimeTask "100" = some 100
      ∧ envLate.staleAfter < envLate.nowB - 100
      ∧ ∃ out,
          shift_submit envLate (singleStore stPending) (plainInput "r1")
            = Except.ok out
          ∧ out.submitted = true
          ∧ (taskWrites out.trace).length = 2
          ∧ (∀ t ∈ taskWrites out.trace, t.id = some stPending.id)
          ∧ ∃ fin, out.store (plainInput "r1").resource_id = some fin
              ∧ fin.id = stPending.id ∧ fin.state = "pending" :=
  ⟨by decide, by decide, by decide, by decide, by decide, by decide,
   by decide,
   submit_stale_pending_overwrites envLate (singleStore stPending)
     (plainInput "r1") rd0 stPending "100" 100 (by decide) (by decide)
     (by decide) (by decide) (by decide) (by decide) (by decide)⟩

/-- C9: the duplicate/staleness guard of Submit applies only to an
existing task in state exactly "pending": with the resource present and
no plugin veto, an existing task in any other state never makes Submit
return false — Submit returns true and overwrites it, reusing its id,
with no condition on its age or on the shape of its last_updated field. -/
theorem submit_non_pending_overwritten (env : Env) (store : Store)
    (input : SubmitInput) (rd : ResourceDict) (st : StoredTask)
    (hres : env.resources input.resource_id = some rd)
    (hallow : ∀ p ∈ env.plugins, p.can_upload input.resource_id = true)
    (htask : task_status_show store input.resource_id "shift" "shift"
      = some st)
    (hstate : st.state ≠ "pending") :
    ∃ out, shift_submit env store input = Except.ok out
      ∧ out.submitted = true
      ∧ (taskWrites out.trace).length = 2
      ∧ (∀ t ∈ taskWrites out.trace, t.id = some st.id)
      ∧ ∃ fin, out.store input.resource_id = some fin ∧ fin.id = st.id
          ∧ fin.state = "pending" := by
  simp only [shift_submit, hres, consultPlugins_allow env.plugins
    input.resource_id hallow, if_true]
  rw [htask]
  simp only [if_neg hstate, finishSubmit]
  refine ⟨_, rfl, rfl, ?_, ?_, ?_⟩
  · simp [taskWrites_append, taskWrites_canUpload_map, taskWrites]
  · intro t ht
    simp [taskWrites_append, taskWrites_canUpload_map, taskWrites] at ht
    rcases ht with h | h <;> subst h <;> rfl
  · simp [task_status_update, storedOfTask]

/-- Witness for C9: an existing task in state "error" is overwritten at
once under its own id by a concrete Submit, which returns true. -/
theorem submit_non_pending_overwritten_witness :
    envAllow.resources (plainInput "r1").resource_id = some rd0
      ∧ (∀ p ∈ envAllow.plugins,
          p.can_upload (plainInput "r1").resource_id = true)
      ∧ task_status_show (singleStore stError)
          (plainInput "r1").resource_id "shift" "shift" = some stError
      ∧ stError.state ≠ "pending"
      ∧ ∃ out,
          shift_submit envAllow (singleStore stError) (plainInput "r1")
            = Except.ok out
          ∧ out.submitted = true
          ∧ (taskWrites out.trace).length = 2
          ∧ (∀ t ∈ taskWrites out.trace, t.id = some stError.id)
          ∧ ∃ fin, out.store (plainInput "r1").resource_id = some fin
              ∧ fin.id = stError.id ∧ fin.state = "pending" :=
  ⟨by decide, by decide, by decide, by decide,
   submit_non_pending_overwritten envAllow (singleStore stError)
     (plainInput "r1") rd0 stError (by decide) (by decide) (by decide)
     (by decide)⟩

/-- C2 (code bug): a concrete successful Submit with no prior task returns
true, writes exactly two task records and leaves the resource with one
task in state "pending" whose value is the serialized job reference; but
the final write's last_updated is a one-element tuple of the timestamp
string, not a plain serialized timestamp string as elsewhere in the task
record — the trailing comma in the source at
`task['last_updated'] = str(datetime.datetime.utcnow()),`. -/
theorem submit_success_last_updated_is_tuple :
    ∃ out, shift_submit env0 emptyStore (plainInput "r1") = Except.ok out
      ∧ out.submitted = true
      ∧ taskWrites out.trace =
          [{ id := none, entity_id := "r1", entity_type := "resource",
             task_type := "shift", key := "shift", state := "submitting",
             value := "\x7b\x7d", error := "\x7b\x7d",
             last_updated := TaskVal.str (strOfTime 1000) },
           { id := none, entity_id := "r1", entity_type := "resource",
             task_type := "shift", key := "shift", state := "pending",
             value := "\x7b\"job_id\": \"job1\", \"job_key\": null\x7d",
             error := "\x7b\x7d",
             last_updated := TaskVal.tup (strOfTime 1001) }]
      ∧ (∀ s, TaskVal.tup (strOfTime 1001) ≠ TaskVal.str s)
      ∧ ∃ fin, out.store "r1" = some fin ∧ fin.state = "pending"
          ∧ fin.id = "tNew"
          ∧ fin.last_updated = TaskVal.tup (strOfTime 1001) := by
  refine ⟨_, rfl, rfl, ?_, ?_, ?_⟩
  · rfl
  · intro s
    simp
  · simp [task_status_update, storedOfTask, plainInput, env0]

/-- C4: characterization of the Hook resubmission decision taken on
status "complete": when the resource's last_modified and the metadata's
task_created are both present (truthy), the decision is true exactly when
both dates parse and the last-modified instant is strictly later than the
task-created instant — in particular an unparseable date yields false
without an error, even when the URLs differ; only when that presence
precondition fails is the URL path consulted, and the decision is then
true exactly when both URLs are present and differ. -/
theorem hook_resubmit_decision_characterized (rd : ResourceDict)
    (md : HookMeta) :
    ((truthyS rd.last_modified && truthyS md.task_created) = true →
      (hookResubmit rd md = true ↔
        ∃ lm tc, parse_date (rd.last_modified.getD "") = some lm
          ∧ parse_date (md.task_created.getD "") = some tc ∧ tc < lm))
    ∧ ((truthyS rd.last_modified && truthyS md.task_created) = false →
      (hookResubmit rd md = true ↔
        (truthyS rd.url && truthyS md.original_url
          && !(rd.url.getD "" = md.original_url.getD "")) = true)) := by
  constructor
  · intro h
    unfold hookResubmit
    rw [h, if_pos rfl]
    rcases hlm : parse_date (rd.last_modified.getD "") with _ | lm <;>
      rcases htc : parse_date (md.task_created.getD "") with _ | tc <;>
        simp [hlm, htc]
  · intro h
    unfold hookResubmit
    rw [h]
    simp only [Bool.false_eq_true, if_false]
    by_cases hc : (truthyS rd.url && truthyS md.original_url
        && !(rd.url.getD "" = md.original_url.getD "")) = true
    · simp [hc]
    · simp only [Bool.not_eq_true] at hc
      simp [hc]

/-- Witness for C4: with both dates present, a strictly later
last_modified makes the concrete decision fire through the date path. -/
theorem hook_resubmit_decision_characterized_witness :
    (truthyS rdLate.last_modified && truthyS mdCreated.task_created) = true
      ∧ hookResubmit rdLate mdCreated = true :=
  ⟨by decide,
   ((hook_resubmit_decision_characterized rdLate mdCreated).1
      (by decide)).mpr ⟨200, 100, by decide, by decide, by decide⟩⟩

/-- C7: a Hook call whose metadata resource id has no task in the store
raises NotFound — the error propagates to the caller, and the failing
call writes no task record (no task-status update precedes the lookup). -/
theorem hook_missing_task_raises_not_found (env : Env) (store : Store)
    (input : HookInput) (md : HookMeta) (status rid : String)
    (hmd : input.metadata = some md) (hstatus : input.status = some status)
    (hrid : md.resource_id = some rid)
    (htask : task_status_show store rid "shift" "shift" = none) :
    shift_hook env store input = Except.error PyError.notFound := by
  simp only [shift_hook, hmd, hstatus, hrid, htask]

/-- Witness for C7: a concrete Hook over an empty task store raises
NotFound. -/
theorem hook_missing_task_raises_not_found_witness :
    hookInBare.metadata = some mdBare
      ∧ hookInBare.status = some "complete"
      ∧ mdBare.resource_id = some "r1"
      ∧ task_status_show emptyStore "r1" "shift" "shift" = none
      ∧ shift_hook env0 emptyStore hookInBare
          = Except.error PyError.notFound :=
  ⟨rfl, rfl, rfl, rfl,
   hook_missing_task_raises_not_found env0 emptyStore hookInBare mdBare
     "complete" "r1" rfl rfl rfl rfl⟩

/-- C8: for every status string, a successful Hook call persists exactly
one task update — the loaded task with state set to that status and
last_updated set to the hook-time string — and that persist precedes any
resubmission: the trace is a prefix free of task writes and enqueues,
then the single hook write, then either nothing or exactly the trace of
the re-entrant Submit call over the already-updated store. -/
theorem hook_updates_task_once_before_resubmit (env : Env) (store : Store)
    (input : HookInput) (md : HookMeta) (status rid : String)
    (task0 : StoredTask) (rd : ResourceDict)
    (hmd : input.metadata = some md) (hstatus : input.status = some status)
    (hrid : md.resource_id = some rid)
    (htask : task_status_show store rid "shift" "shift" = some task0)
    (hres : env.resources rid = some rd)
    (hpkg : env.packages rd.package_id = some ()) :
    ∃ out pre rest, shift_hook env store input = Except.ok out
      ∧ out.trace = pre
          ++ Event.taskUpdate (hookUpdatedTask task0 status env.hookNow)
            :: rest
      ∧ taskWrites pre = [] ∧ enqueues pre = []
      ∧ (hookUpdatedTask task0 status env.hookNow).state = status
      ∧ (hookUpdatedTask task0 status env.hookNow).last_updated
          = TaskVal.str (strOfTime env.hookNow)
      ∧ (rest = []
          ∨ ∃ out2, shift_submit env
                (task_status_update store env.new_task_id
                  (hookUpdatedTask task0 status env.hookNow))
                { resource_id := rid, set_url_type := none,
                  ignore_hash := none }
              = Except.ok out2 ∧ rest = out2.trace) := by
  simp only [shift_hook, hmd, hstatus, hrid, htask]
  by_cases hc : status = "complete"
  · subst hc
    rw [if_pos rfl]
    simp only [hres, hpkg]
    by_cases hr : hookResubmit rd md = true
    · have hfields := task_status_show_fields store rid "shift" "shift"
        task0 htask
      have hshow1 : task_status_show
          (task_status_update store env.new_task_id
            (hookUpdatedTask task0 "complete" env.hookNow)) rid "shift"
            "shift"
          = some (storedOfTask env.new_task_id
              (hookUpdatedTask task0 "complete" env.hookNow)) := by
        simp [task_status_show, task_status_update, hookUpdatedTask,
          storedOfTask, hfields.2.1, hfields.2.2.1, hfields.2.2.2]
      rcases shift_submit_ok_of_not_pending env
          (task_status_update store env.new_task_id
            (hookUpdatedTask task0 "complete" env.hookNow))
          { resource_id := rid, set_url_type := none, ignore_hash := none }
          (storedOfTask env.new_task_id
            (hookUpdatedTask task0 "complete" env.hookNow))
          hshow1 (by simp [storedOfTask, hookUpdatedTask]) with ⟨out2, hout2⟩
      rw [if_pos hr]
      simp only [hout2]
      refine ⟨_, _, _, rfl, rfl, ?_, ?_, rfl, rfl,
        Or.inr ⟨out2, rfl, rfl⟩⟩
      · simp [taskWrites_append, taskWrites_afterUpload_map, taskWrites]
      · simp [enqueues_append, enqueues_afterUpload_map, enqueues]
    · rw [if_neg hr]
      refine ⟨_, _, _, rfl, rfl, ?_, ?_, rfl, rfl, Or.inl rfl⟩
      · simp [taskWrites_append, taskWrites_afterUpload_map, taskWrites]
      · simp [enqueues_append, enqueues_afterUpload_map, enqueues]
  · rw [if_neg hc]
    exact ⟨_, [], [], rfl, rfl, rfl, rfl, rfl, rfl, Or.inl rfl⟩

/-- Witness for C8: a concrete Hook with status "error" persists exactly
the updated task, with nothing before or after it. -/
theorem hook_updates_task_once_before_resubmit_witness :
    hookInErr.metadata = some mdBare
      ∧ hookInErr.status = some "error"
      ∧ mdBare.resource_id = some "r1"
      ∧ task_status_show (singleStore stPending) "r1" "shift" "shift"
          = some stPending
      ∧ env0.resources "r1" = some rd0
      ∧ env0.packages rd0.package_id = some ()
      ∧ ∃ out pre rest,
          shift_hook env0 (singleStore stPending) hookInErr = Except.ok out
          ∧ out.trace = pre
              ++ Event.taskUpdate
                  (hookUpdatedTask stPending "error" env0.hookNow) :: rest
          ∧ taskWrites pre = [] ∧ enqueues pre = []
          ∧ (hookUpdatedTask stPending "error" env0.hookNow).state = "error"
          ∧ (hookUpdatedTask stPending "error" env0.hookNow).last_updated
              = TaskVal.str (strOfTime env0.hookNow)
          ∧ (rest = []
              ∨ ∃ out2, shift_submit env0
                    (task_status_update (singleStore stPending)
                      env0.new_task_id
                      (hookUpdatedTask stPending "error" env0.hookNow))
                    { resource_id := "r1", set_url_type := none,
                      ignore_hash := none }
                  = Except.ok out2 ∧ rest = out2.trace) :=
  ⟨rfl, rfl, rfl, by decide, by decide, rfl,
   hook_updates_task_once_before_resubmit env0 (singleStore stPending)
     hookInErr mdBare "error" "r1" stPending rd0 rfl rfl rfl (by decide)
     (by decide) rfl⟩

/-- C10: when a Hook on status "complete" decides to resubmit (here with
no plugin veto), the whole Hook trace holds exactly one enqueue — the
resubmitted job — and its metadata carries set_url_type = false and
ignore_hash = false, the `.get(flag, False)` defaults of a Submit input
holding only the resource id, whatever flag values the hook metadata
carried. -/
theorem hook_resubmit_uses_default_flags (env : Env) (store : Store)
    (input : HookInput) (md : HookMeta) (rid : String)
    (task0 : StoredTask) (rd : ResourceDict)
    (hmd : input.metadata = some md)
    (hstatus : input.status = some "complete")
    (hrid : md.resource_id = some rid)
    (htask : task_status_show store rid "shift" "shift" = some task0)
    (hres : env.resources rid = some rd)
    (hpkg : env.packages rd.package_id = some ())
    (hallow : ∀ p ∈ env.plugins, p.can_upload rid = true)
    (hresub : hookResubmit rd md = true) :
    ∃ out j, shift_hook env store input = Except.ok out
      ∧ enqueues out.trace = [j]
      ∧ j.metadata.set_url_type = false
      ∧ j.metadata.ignore_hash = false
      ∧ j.metadata.resource_id = rid
      ∧ j.job_type = "push_to_datastore" := by
  have hfields := task_status_show_fields store rid "shift" "shift"
    task0 htask
  have hshow1 : task_status_show
      (task_status_update store env.new_task_id
        (hookUpdatedTask task0 "complete" env.hookNow)) rid "shift" "shift"
      = some (storedOfTask env.new_task_id
          (hookUpdatedTask task0 "complete" env.hookNow)) := by
    simp [task_status_show, task_status_update, hookUpdatedTask,
      storedOfTask, hfields.2.1, hfields.2.2.1, hfields.2.2.2]
  have hne : (storedOfTask env.new_task_id
      (hookUpdatedTask task0 "complete" env.hookNow)).state ≠ "pending" := by
    simp [storedOfTask, hookUpdatedTask]
  simp only [shift_hook, hmd, hstatus, hrid, htask]
  rw [if_pos trivial]
  simp only [hres, hpkg]
  rw [if_pos hresub]
  simp only [shift_submit, hres, consultPlugins_allow env.plugins rid hallow,
    eq_self_iff_true, if_true, hshow1, if_neg hne, finishSubmit]
  refine ⟨_,
    { api_key := env.user_apikey, job_type := "push_to_datastore",
      result_url := env.site_url ++ "/api/3/action/shift_hook",
      metadata :=
        { ignore_hash := false, ckan_url := env.site_url,
          resource_id := rid, set_url_type := false,
          task_created := strOfTime env.nowA, original_url := rd.url } },
    rfl, ?_, rfl, rfl, rfl, rfl⟩
  simp only [enqueues_append, enqueues_afterUpload_map,
    enqueues_canUpload_map, enqueues_cons_taskUpdate, enqueues_cons_views,
    enqueues_cons_enqueue, enqueues_nil, List.nil_append, List.append_nil,
    Option.getD_none]

/-- Witness for C10: a Hook whose metadata carries both flags set to true
and a changed original URL resubmits with both flags back at false. -/
theorem hook_resubmit_uses_default_flags_witness :
    hookInFlags.metadata = some mdFlags
      ∧ hookInFlags.status = some "complete"
      ∧ mdFlags.resource_id = some "r1"
      ∧ mdFlags.ignore_hash = some true
      ∧ mdFlags.set_url_type = some true
      ∧ task_status_show (singleStore stPending) "r1" "shift" "shift"
          = some stPending
      ∧ envAllow.resources "r1" = some rd0
      ∧ envAllow.packages rd0.package_id = some ()
      ∧ (∀ p ∈ envAllow.plugins, p.can_upload "r1" = true)
      ∧ hookResubmit rd0 mdFlags = true
      ∧ ∃ out j,
          shift_hook envAllow (singleStore stPending) hookInFlags
            = Except.ok out
          ∧ enqueues out.trace = [j]
          ∧ j.metadata.set_url_type = false
          ∧ j.metadata.ignore_hash = false
          ∧ j.metadata.resource_id = "r1"
          ∧ j.job_type = "push_to_datastore" :=
  ⟨rfl, rfl, rfl, rfl, rfl, by decide, by decide, rfl, by decide,
   by decide,
   hook_resubmit_uses_default_flags envAllow (singleStore stPending)
     hookInFlags mdFlags "r1" stPending rd0 rfl rfl rfl (by decide)
     (by decide) rfl (by decide) (by decide)⟩

end Shift
